import Mathlib

/-!
Verification development for the ClaudePulse notification pipeline.

This file gives a shallow embedding of the notification routing code
(`modules/notification-router.js`, whose full source is embedded in the
repository README, and the `NotificationIntelligence` module) and proves
the testable properties stated in the design specification against it.

Modelling conventions:
* JS `Map` objects (`this.notifiers`, `this.rateLimits`) become
  insertion-ordered association lists.
* `Date.now()` timestamps and millisecond windows become `Int` (the
  configuration may contain non-positive windows, which the code accepts).
* The external channel adapters are modelled by a `sendOk` flag on each
  registered notifier: `sendToChannel` resolves exactly when the notifier
  exists, is enabled and its adapter `send` does not throw; a thrown
  error (or a missing/disabled notifier) becomes a rejected outcome,
  which `Promise.allSettled` in `notify` records as `failed`.
  Consequently `notify` is a total function: it never throws.
* The async drain loop `processQueue` becomes a fuel-indexed recursion;
  each `setTimeout(1000)` wait advances the model clock by 1000 ms.
-/

namespace ClaudePulse

/-- Rate limit configuration `{max, window}` as read from
`config.globalRateLimit` or `notifier.config.rateLimit`. -/
structure RateLimitConfig where
  max : Nat
  window : Int
deriving Repr, DecidableEq

/-- One entry of the `rateLimits` map: `{count, resetAt}`. -/
structure RateRecord where
  count : Nat
  resetAt : Int
deriving Repr, DecidableEq

/-- A registered notifier as the router sees it: its name, the `enabled`
flag set by the adapter constructor (`config.enabled !== false`), its
`config.rateLimit`, and the external adapter behaviour for `send`
(`sendOk = true` iff the adapter's `send` resolves instead of throwing). -/
structure Notifier where
  name : String
  enabled : Bool
  rateLimit : Option RateLimitConfig
  sendOk : Bool
deriving Repr, DecidableEq

/-- A routing rule from `config.notificationRules`. -/
structure Rule where
  type : Option String := none
  priority : Option String := none
  keywords : Option (List String) := none
  modules : Option (List String) := none
  channels : List String := []
deriving Repr, DecidableEq

/-- The `options` argument of `notify`. -/
structure NotifyOptions where
  type : Option String := none
  priority : Option String := none
  module : Option String := none
  channels : Option (List String) := none
deriving Repr, DecidableEq

/-- The slice of the router's `config` that the routing logic reads. -/
structure RouterConfig where
  globalRateLimit : Option RateLimitConfig := none
  defaultChannels : Option (List String) := none
deriving Repr, DecidableEq

/-- An entry of `this.messageQueue`: `{message, options, channels}`. -/
structure QueueItem where
  message : String
  options : NotifyOptions
  channels : List String
deriving Repr, DecidableEq

/-- The mutable state of a `NotificationRouter` instance. -/
structure Router where
  config : RouterConfig
  rules : List Rule
  notifiers : List Notifier
  rateLimits : List (String × RateRecord)
  messageQueue : List QueueItem
deriving Repr, DecidableEq

/-- `this.notifiers.get(ch)` (also backs `this.notifiers.has(ch)`). -/
def findNotifier (r : Router) (ch : String) : Option Notifier :=
  r.notifiers.find? (fun n => n.name == ch)

/-- `this.notifiers.has(ch)`. -/
def hasNotifier (r : Router) (ch : String) : Bool :=
  (findNotifier r ch).isSome

/-- `this.rateLimits.get(key)`. -/
def lookupRecord : List (String × RateRecord) → String → Option RateRecord
  | [], _ => none
  | (k, v) :: rest, key => if k = key then some v else lookupRecord rest key

/-- `this.rateLimits.set(key, v)`: replace in place, or append a new key. -/
def setRecord : List (String × RateRecord) → String → RateRecord →
    List (String × RateRecord)
  | [], key, v => [(key, v)]
  | (k, w) :: rest, key, v =>
    if k = key then (k, v) :: rest else (k, w) :: setRecord rest key v

/-- `this.rateLimits.get(key) || { count: 0, resetAt: now + limit.window }`. -/
def recordOrDefault (limits : List (String × RateRecord)) (key : String)
    (window now : Int) : RateRecord :=
  (lookupRecord limits key).getD ⟨0, now + window⟩

/-- The blocking test `Date.now() < record.resetAt && record.count >= limit.max`
used by `isRateLimited` for one rate-limit key. -/
def limitBlocked (limits : List (String × RateRecord)) (key : String)
    (cfg : RateLimitConfig) (now : Int) : Bool :=
  let record := recordOrDefault limits key cfg.window now
  decide (now < record.resetAt) && decide (cfg.max ≤ record.count)

/-- `NotificationRouter.isRateLimited(channels, options)`: a pure check of the
global window and of every selected channel's window; never writes the map. -/
def isRateLimited (r : Router) (channels : List String) (now : Int) : Bool :=
  (match r.config.globalRateLimit with
   | some limit => limitBlocked r.rateLimits "global" limit now
   | none => false) ||
  channels.any (fun ch =>
    match findNotifier r ch with
    | some n =>
      match n.rateLimit with
      | some limit => limitBlocked r.rateLimits ("channel:" ++ ch) limit now
      | none => false
    | none => false)

/-- The per-key update in `updateRateLimits`: reset the window to count 1 when
`now >= record.resetAt`, else increment the count. -/
def bumpRecord (limits : List (String × RateRecord)) (key : String)
    (cfg : RateLimitConfig) (now : Int) : List (String × RateRecord) :=
  let record := recordOrDefault limits key cfg.window now
  let record' : RateRecord :=
    if record.resetAt ≤ now then ⟨1, now + cfg.window⟩
    else ⟨record.count + 1, record.resetAt⟩
  setRecord limits key record'

/-- `NotificationRouter.updateRateLimits(channels)`: the commit that bumps the
global window and each dispatched channel's window. -/
def updateRateLimits (r : Router) (channels : List String) (now : Int) :
    Router :=
  let limits :=
    match r.config.globalRateLimit with
    | some limit => bumpRecord r.rateLimits "global" limit now
    | none => r.rateLimits
  let limits := channels.foldl (fun ls ch =>
    match findNotifier r ch with
    | some n =>
      match n.rateLimit with
      | some limit => bumpRecord ls ("channel:" ++ ch) limit now
      | none => ls
    | none => ls) limits
  { r with rateLimits := limits }

/-- `message.includes(pat)` on JS strings (substring containment). -/
def strContains (s pat : String) : Bool :=
  decide (pat.data <:+: s.data)

/-- `s.toLowerCase()`: character-wise lower-casing, implemented on the
character list (same result as `String.toLower`, but it evaluates in the
kernel). -/
def strToLower (s : String) : String :=
  ⟨s.data.map Char.toLower⟩

/-- `NotificationRouter.matchRule(rule, message, options)`: every predicate
present on the rule must match; absent predicates are wildcards. -/
def matchRule (ru : Rule) (message : String) (options : NotifyOptions) :
    Bool :=
  (match ru.type with
   | some t => options.type == some t
   | none => true) &&
  (match ru.priority with
   | some p => options.priority == some p
   | none => true) &&
  (match ru.keywords with
   | some ks => ks.any (fun k => strContains (strToLower message) (strToLower k))
   | none => true) &&
  (match ru.modules with
   | some ms =>
     match options.module with
     | some m => ms.contains m
     | none => false
   | none => true)

/-- `Set.add` on an insertion-ordered set represented as a list. -/
def addUnique (l : List String) (x : String) : List String :=
  if x ∈ l then l else l ++ [x]

/-- Add every channel of `chs` that is a registered notifier to the set. -/
def addRegistered (r : Router) (acc : List String) (chs : List String) :
    List String :=
  chs.foldl (fun a ch => if hasNotifier r ch then addUnique a ch else a) acc

/-- `NotificationRouter.selectChannels(message, options)`:
explicit `options.channels` filtered to registered notifiers; otherwise the
union of matching rules' channels, then `config.defaultChannels`, then the
first registered notifier. -/
def selectChannels (r : Router) (message : String) (options : NotifyOptions) :
    List String :=
  match options.channels with
  | some chs => chs.filter (fun ch => hasNotifier r ch)
  | none =>
    let matched := r.rules.foldl (fun acc ru =>
      if matchRule ru message options then addRegistered r acc ru.channels
      else acc) []
    let matched :=
      if matched.isEmpty then
        match r.config.defaultChannels with
        | some ds => addRegistered r [] ds
        | none => matched
      else matched
    if matched.isEmpty then
      match r.notifiers with
      | [] => matched
      | n :: _ => [n.name]
    else matched

/-- `NotificationRouter.sendToChannel(channel, message, options)`, observed
through `Promise.allSettled`: `true` = fulfilled, `false` = rejected
(notifier missing, notifier disabled, or the adapter's `send` threw). -/
def sendToChannel (r : Router) (ch : String) : Bool :=
  match findNotifier r ch with
  | none => false
  | some n => if n.enabled then n.sendOk else false

/-- The value `notify` returns: no channel selected, rate-limited-and-queued,
or the dispatch tally `{successful, failed, total}` (the JS object's
`success` field is the derived `successful > 0`). -/
inductive NotifyResult where
  | noChannels
  | rateLimitedQueued
  | dispatched (successful failed total : Nat)
deriving Repr, DecidableEq

/-- `NotificationRouter.notify(message, options)` at model time `now`. -/
def notify (r : Router) (message : String) (options : NotifyOptions)
    (now : Int) : NotifyResult × Router :=
  let channels := selectChannels r message options
  if channels.isEmpty then (.noChannels, r)
  else if isRateLimited r channels now then
    (.rateLimitedQueued,
     { r with messageQueue := r.messageQueue ++ [⟨message, options, channels⟩] })
  else
    let outcomes := channels.map (fun ch => sendToChannel r ch)
    let r' := updateRateLimits r channels now
    (.dispatched (outcomes.count true) (outcomes.count false) channels.length,
     r')

/-- `{ ...options, channels }` as built inside `processQueue`. -/
def withChannels (o : NotifyOptions) (chs : List String) : NotifyOptions :=
  { o with channels := some chs }

/-- The `while` loop of `NotificationRouter.processQueue`, fuel-indexed.
Each iteration inspects the head of `messageQueue`; if its channels are still
rate-limited it sleeps 1000 ms (`now + 1000`) and retries the same head,
otherwise it re-sends the head through `notify` and shifts it off the queue.
The third component logs, in order, the items whose re-send dispatched. -/
def processQueueAux : Nat → Router → Int → Router × Int × List QueueItem
  | 0, r, now => (r, now, [])
  | Nat.succ fuel, r, now =>
    match r.messageQueue with
    | [] => (r, now, [])
    | item :: _ =>
      if isRateLimited r item.channels now then
        processQueueAux fuel r (now + 1000)
      else
        let res := notify r item.message (withChannels item.options item.channels) now
        let r2 := { res.2 with messageQueue := res.2.messageQueue.tail }
        let rest := processQueueAux fuel r2 now
        match res.1 with
        | .dispatched _ _ _ => (rest.1, rest.2.1, item :: rest.2.2)
        | _ => rest

/-! ### NotificationIntelligence (DND suppression and aggregation) -/

/-- The `dndMode` configuration of `NotificationIntelligence`:
the schedule's `workHours`/`sleepHours` are `"HH:MM"` strings, compared
lexicographically exactly as the JS `<`/`>=` string comparisons do. -/
structure DndMode where
  enabled : Bool
  workStart : String
  workEnd : String
  sleepStart : String
  sleepEnd : String
  exceptions : List String
  autoDetect : Bool
deriving Repr, DecidableEq

/-- The JS `<` on strings: lexicographic comparison of the character
sequences (this is also the order of Lean's `String` instance, spelled on
the character lists so that it evaluates). -/
def strLt (s t : String) : Bool :=
  decide (s.data < t.data)

/-- `NotificationIntelligence.isInTimeRange(currentTime, range)`; when
`start >= end` the range wraps midnight (`t >= start || t < end`). -/
def isInTimeRange (currentTime start stop : String) : Bool :=
  if strLt start stop then
    !strLt currentTime start && strLt currentTime stop
  else
    !strLt currentTime start || strLt currentTime stop

/-- The hard-coded keyword list of
`NotificationIntelligence.isWorkRelatedNotification`. -/
def workKeywords : List String :=
  ["error", "critical", "build", "deploy", "test", "commit"]

/-- `NotificationIntelligence.isWorkRelatedNotification(message, options)`. -/
def isWorkRelatedNotification (message : String) : Bool :=
  workKeywords.any (fun k => strContains (strToLower message) k)

/-- `NotificationIntelligence.shouldSuppressNotification(message, options)`,
with the wall-clock `"HH:MM"` string passed in as `currentTime`. -/
def shouldSuppressNotification (dnd : DndMode) (message : String)
    (options : NotifyOptions) (currentTime : String) : Bool :=
  if dnd.enabled = false then false
  else if (match options.priority with
           | some p => dnd.exceptions.contains p
           | none => false) then false
  else if isInTimeRange currentTime dnd.sleepStart dnd.sleepEnd then true
  else if dnd.autoDetect &&
          isInTimeRange currentTime dnd.workStart dnd.workEnd &&
          !isWorkRelatedNotification message then true
  else false

/-- The `aggregation` configuration of `NotificationIntelligence`. -/
structure AggregationConfig where
  enabled : Bool
  window : Int
  maxSize : Nat
  similarityThreshold : ℚ
deriving Repr, DecidableEq

/-- The options object travelling with a pending notification: the fields
`generateSummary` reads or writes (`aggregated`, `count`) plus `priority`
standing for the opaque caller-supplied rest, which is forwarded unchanged. -/
structure AggOptions where
  priority : Option String := none
  aggregated : Bool := false
  count : Option Nat := none
deriving Repr, DecidableEq

/-- An entry of `pendingNotifications`: `{message, options, timestamp}`. -/
structure PendingNote where
  message : String
  options : AggOptions := {}
  timestamp : Int := 0
deriving Repr, DecidableEq

/-- What `generateSummary` hands to `sendNotification`: a message and its
options (the source passes `summary.message, summary.options`; any
`timestamp` field on a passed-through singleton is ignored there). -/
structure SummaryNote where
  message : String
  options : AggOptions := {}
deriving Repr, DecidableEq

/-- Split a character list at every character satisfying `p` (the
semantics of `String.split`, implemented structurally). -/
def splitOnPred (p : Char → Bool) : List Char → List (List Char)
  | [] => [[]]
  | c :: rest =>
    if p c then [] :: splitOnPred p rest
    else
      match splitOnPred p rest with
      | [] => [[c]]
      | g :: gs => (c :: g) :: gs

/-- `message.toLowerCase().split(/\s+/)`: lower-case tokens split on runs of
whitespace (for messages without leading or trailing whitespace this is
exactly the JS regex split; empty fragments from consecutive separators are
dropped, matching the regex's run-collapsing). -/
def tokensOf (s : String) : List String :=
  ((splitOnPred (fun c => c.isWhitespace) (strToLower s).data).map
    (fun cs => String.mk cs)).filter (fun t => t ≠ "")

/-- `NotificationIntelligence.calculateSimilarity(message1, message2)`:
`2 * |common words| / (|words1| + |words2|)`, as the exact rational
`mkRat (2 * |common|) (|words1| + |words2|)` (for a zero denominator JS
yields `NaN`, which fails every `>=`-threshold test, and `mkRat _ 0 = 0`
fails them likewise for the positive thresholds in use). -/
def calculateSimilarity (m1 m2 : String) : ℚ :=
  let words1 := tokensOf m1
  let words2 := tokensOf m2
  let commonWords := words1.filter (fun w => words2.contains w)
  mkRat (2 * commonWords.length) (words1.length + words2.length)

/-- The inner `for (const group of groups)` loop of
`groupSimilarNotifications`: put `note` into the first group whose
representative (first member) is similar at or above the threshold;
`none` when no group matches. -/
def placeNote (threshold : ℚ) (note : PendingNote) :
    List (List PendingNote) → Option (List (List PendingNote))
  | [] => none
  | g :: gs =>
    if threshold ≤ calculateSimilarity note.message (g.headD note).message then
      some ((g ++ [note]) :: gs)
    else
      match placeNote threshold note gs with
      | some gs' => some (g :: gs')
      | none => none

/-- `NotificationIntelligence.groupSimilarNotifications(notifications)`:
each notification joins the first existing group whose representative is
similar above the threshold, else opens a new singleton group. -/
def groupSimilarNotifications (threshold : ℚ) (notes : List PendingNote) :
    List (List PendingNote) :=
  notes.foldl (fun groups note =>
    match placeNote threshold note groups with
    | some groups' => groups'
    | none => groups ++ [[note]]) []

/-- The exact summary text built by `generateSummary` for a group of
`count ≥ 2` members with representative text `rep`; note the suffix counts
`count - 1` further messages. -/
def summaryText (rep : String) (count : Nat) : String :=
  "📦 聚合通知 (" ++ toString count ++ "条)\n\n" ++ rep ++
    "\n\n... 以及 " ++ toString (count - 1) ++ " 条类似通知"

/-- `NotificationIntelligence.generateSummary(group)`: a singleton group is
forwarded unchanged (its options in particular gain no `aggregated` mark);
a larger group becomes one summary whose options are the representative's
options overridden with `aggregated: true` and `count`. The `[]` case is
unreachable from `groupSimilarNotifications`. -/
def generateSummary (group : List PendingNote) : SummaryNote :=
  match group with
  | [] => ⟨"", {}⟩
  | [n] => ⟨n.message, n.options⟩
  | n :: rest =>
    let count := rest.length + 1
    ⟨summaryText n.message count,
     { n.options with aggregated := true, count := some count }⟩

/-- `NotificationIntelligence.flushAggregatedNotifications()`: group the
whole pending queue by similarity, send one (possibly summarized)
notification per group, clear the queue and the timer. Returns the list of
notifications handed to `sendNotification`. -/
def flushAggregatedNotifications (cfg : AggregationConfig)
    (pending : List PendingNote) : List SummaryNote :=
  (groupSimilarNotifications cfg.similarityThreshold pending).map
    generateSummary

/-- The outcome of one `aggregateNotifications` call: either the pending
queue grew (held, `{aggregated:true}` returned to the caller) or the whole
queue was flushed immediately because `pendingNotifications.length >=
maxSize`, sending the listed notifications. -/
inductive AggregateOutcome where
  | disabled
  | held (pending : List PendingNote)
  | flushed (sent : List SummaryNote)
deriving Repr, DecidableEq

/-- `NotificationIntelligence.aggregateNotifications(message, options)`:
append to `pendingNotifications`; if the whole pending queue has reached
`maxSize`, flush it all immediately, else keep holding (the window timer
and the periodic driver cover the rest). -/
def aggregateNotifications (cfg : AggregationConfig)
    (pending : List PendingNote) (message : String) (options : AggOptions)
    (now : Int) : AggregateOutcome :=
  if cfg.enabled = false then .disabled
  else
    let pending' := pending ++ [⟨message, options, now⟩]
    if cfg.maxSize ≤ pending'.length then
      .flushed (flushAggregatedNotifications cfg pending')
    else
      .held pending'

/-- The window check of `NotificationIntelligence.execute()` (the periodic
driver): flush exactly when some notification is pending and the oldest one
is at least `window` old. -/
def executeFlushes (cfg : AggregationConfig) (pending : List PendingNote)
    (now : Int) : Bool :=
  match pending with
  | [] => false
  | oldest :: _ => decide (cfg.window ≤ now - oldest.timestamp)

/-! ### Startup (`constructor` + `init`) -/

/-- One channel section of the configuration as the adapters consume it:
the adapter constructors set `enabled = config.enabled !== false` and keep
`config.rateLimit`; `sendOk` again models the external adapter's `send`. -/
structure ChannelSection where
  enabled : Bool := true
  rateLimit : Option RateLimitConfig := none
  sendOk : Bool := true
deriving Repr, DecidableEq

/-- The configuration object handed to the `NotificationRouter` constructor. -/
structure InitConfig where
  telegram : Option ChannelSection := none
  discord : Option ChannelSection := none
  slack : Option ChannelSection := none
  email : Option ChannelSection := none
  globalRateLimit : Option RateLimitConfig := none
  defaultChannels : Option (List String) := none
  notificationRules : List Rule := []
deriving Repr, DecidableEq

/-- Register one adapter when its config section is present. -/
def registerSection (name : String) (sec : Option ChannelSection)
    (ns : List Notifier) : List Notifier :=
  match sec with
  | some cs => ns ++ [⟨name, cs.enabled, cs.rateLimit, cs.sendOk⟩]
  | none => ns

/-- `new NotificationRouter(config)` followed by `init()`: registers the
telegram/discord/slack/email adapters for the present config sections, in
that order, and starts with empty rate-limit map and message queue. Neither
the constructor nor `init` inspects any `rateLimit` values: there is no
configuration validation and no failure path for rate-limit settings. -/
def initRouter (cfg : InitConfig) : Router :=
  { config := ⟨cfg.globalRateLimit, cfg.defaultChannels⟩
    rules := cfg.notificationRules
    notifiers :=
      registerSection "email" cfg.email
        (registerSection "slack" cfg.slack
          (registerSection "discord" cfg.discord
            (registerSection "telegram" cfg.telegram [])))
    rateLimits := []
    messageQueue := [] }

/-! ### Invariants used by the queue-liveness analysis -/

/-- Largest `resetAt` stored in the rate-limit map (`0` when empty). -/
def maxReset : List (String × RateRecord) → Int
  | [] => 0
  | kv :: rest => max kv.2.resetAt (maxReset rest)

/-- Every configured rate limit (global and per registered notifier) allows
at least one send per window (`max >= 1`). -/
def positiveLimits (r : Router) : Bool :=
  (match r.config.globalRateLimit with
   | some l => decide (1 ≤ l.max)
   | none => true) &&
  r.notifiers.all (fun n =>
    match n.rateLimit with
    | some l => decide (1 ≤ l.max)
    | none => true)

/-- Every queued item has a nonempty channel list of registered notifiers —
which is how `notify` builds queue entries (it queues the nonempty output of
`selectChannels`, whose members are all registered). -/
def goodQueue (r : Router) : Bool :=
  r.messageQueue.all (fun item =>
    !item.channels.isEmpty && item.channels.all (fun ch => hasNotifier r ch))

/-! ### Concrete states used by the per-claim witnesses and counterexamples -/

/-- C1 scenario: one registered, enabled channel with `rateLimit
{max: 3, window: 60000}` and no global limit. -/
def c1Notifier : Notifier := ⟨"telegram", true, some ⟨3, 60000⟩, true⟩

/-- C1 scenario: fresh router holding only `c1Notifier`. -/
def c1Router : Router := ⟨{}, [], [c1Notifier], [], []⟩

/-- C1 scenario: the router with the channel window at `count`/`resetAt`
and queue `q`. -/
def c1RouterAt (count : Nat) (resetAt : Int)
    (q : List QueueItem := []) : Router :=
  { c1Router with
    rateLimits := [("channel:telegram", ⟨count, resetAt⟩)]
    messageQueue := q }

/-- C1 scenario: every call targets the single channel explicitly. -/
def c1Opts : NotifyOptions := { channels := some ["telegram"] }

/-- C1 scenario: the router state after one `notify` call. -/
def c1Step (m : String) (tn : Int) (r : Router) : Router :=
  (notify r m c1Opts tn).2

/-- C2 example: channel A whose adapter `send` throws. -/
def c2NotifierA : Notifier := ⟨"discord", true, none, false⟩

/-- C2 example: channel B whose adapter `send` succeeds. -/
def c2NotifierB : Notifier := ⟨"slack", true, none, true⟩

/-- C2 example: router with the two channels and no rate limits. -/
def c2Router : Router := ⟨{}, [], [c2NotifierA, c2NotifierB], [], []⟩

/-- C2 example: dispatch explicitly to `[A, B]`. -/
def c2Opts : NotifyOptions := { channels := some ["discord", "slack"] }

/-- C3/C7 example: a registered but disabled notifier, registered first. -/
def c3Disabled : Notifier := ⟨"telegram", false, none, true⟩

/-- C3/C7 example: a registered and enabled notifier, registered second. -/
def c3Enabled : Notifier := ⟨"discord", true, none, true⟩

/-- C3 example: router where the only requested channel is disabled. -/
def c3Router : Router := ⟨{}, [], [c3Disabled], [], []⟩

/-- C3 witness options: one registered and one unregistered channel. -/
def c3Opts : NotifyOptions := { channels := some ["telegram", "zulip"] }

/-- C3 witness rule: a rule pointing at a different channel, to show the
rule set is not consulted on the explicit path. -/
def c3Rule : Rule := { type := some "error", channels := ["discord"] }

/-- C7 example: disabled channel registered before an enabled one, no rules
and no `defaultChannels`. -/
def c7Router : Router := ⟨{}, [], [c3Disabled, c3Enabled], [], []⟩

/-- C7 witness: a rule that does not match an `info` notification. -/
def c7Rule : Rule := { type := some "error", channels := ["discord"] }

/-- C7 witness router: `c7Router` plus the non-matching rule. -/
def c7Router' : Router := ⟨{}, [c7Rule], [c3Disabled, c3Enabled], [], []⟩

/-- C5 example: a channel allowing one send per 60 s window. -/
def c5Notifier : Notifier := ⟨"discord", true, some ⟨1, 60000⟩, true⟩

/-- C5 example: first queued item. -/
def c5Item1 : QueueItem := ⟨"first", {}, ["discord"]⟩

/-- C5 example: second queued item. -/
def c5Item2 : QueueItem := ⟨"second", {}, ["discord"]⟩

/-- C5 example: router whose channel window is exhausted until `t = 500`
with both items queued. -/
def c5Router : Router :=
  ⟨{}, [], [c5Notifier], [("channel:discord", ⟨1, 500⟩)], [c5Item1, c5Item2]⟩

/-- C6 example: the source's default DND configuration
(sleep 23:00–07:00, work 09:00–18:00, exceptions critical/error). -/
def c6Dnd : DndMode :=
  ⟨true, "09:00", "18:00", "23:00", "07:00", ["critical", "error"], true⟩

/-- C4 example: aggregation with `maxSize = 2` and the default similarity
threshold `0.7`. -/
def c4Cfg : AggregationConfig := ⟨true, 300000, 2, mkRat 7 10⟩

/-- C4 example: the sole pending notification, held at `t = 0`. -/
def c4Pending : PendingNote := ⟨"alpha", {}, 0⟩

/-- C9 example: configuration carrying the invalid `window = 0` rate limits
(both global and for the registered discord channel), with `max = 0`. -/
def c9Cfg : InitConfig :=
  { discord := some ⟨true, some ⟨0, 0⟩, true⟩
    globalRateLimit := some ⟨0, 0⟩ }

/-- C9 example: send explicitly to the discord channel. -/
def c9Opts : NotifyOptions := { channels := some ["discord"] }

/-- C10 example (counterexample): a global limit with `max = 0`, which the
admission check treats as always blocked while the window is live. -/
def c10Router0 : Router := ⟨⟨some ⟨0, 60000⟩, none⟩, [], [⟨"discord", true, none, true⟩], [], []⟩

/-- C10 example: explicit discord dispatch. -/
def c10Opts : NotifyOptions := { channels := some ["discord"] }

/-- C10 example: the state after the first (queued) `notify` call. -/
def c10Queued : Router := (notify c10Router0 "msg" c10Opts 0).2

/-- C10 witness: a channel limited to one send per window. -/
def c10wNotifier : Notifier := ⟨"discord", true, some ⟨1, 60000⟩, true⟩

/-- C10 witness: two rate-limited items queued behind an exhausted window. -/
def c10wRouter : Router :=
  ⟨{}, [], [c10wNotifier], [("channel:discord", ⟨1, 90000⟩)],
   [⟨"first", {}, ["discord"]⟩, ⟨"second", {}, ["discord"]⟩]⟩

/-- The fallback tail of `selectChannels` (no explicit channels, no matching
rule): the registered subset of `config.defaultChannels`, else the first
registered notifier's name, else nothing. Used to state C7. -/
def fallbackChannels (r : Router) : List String :=
  let defaults :=
    match r.config.defaultChannels with
    | some ds => addRegistered r [] ds
    | none => []
  if defaults.isEmpty then
    match r.notifiers with
    | [] => defaults
    | n :: _ => [n.name]
  else defaults

/-! ## Helper lemmas -/

lemma selectChannels_explicit (r : Router) (m : String) (o : NotifyOptions)
    (chs : List String) (h : o.channels = some chs) :
    selectChannels r m o = chs.filter (fun ch => hasNotifier r ch) := by
  simp only [selectChannels, h]

lemma rulesFold_empty (r : Router) (m : String) (o : NotifyOptions)
    (rules : List Rule) (h : ∀ ru ∈ rules, matchRule ru m o = false) :
    rules.foldl (fun acc ru =>
      if matchRule ru m o then addRegistered r acc ru.channels else acc)
      [] = [] := by
  induction rules with
  | nil => rfl
  | cons ru rest ih =>
    simp only [List.foldl_cons, h ru (List.mem_cons_self ru rest)]
    exact ih (fun x hx => h x (List.mem_cons_of_mem ru hx))

/-! ## C3 — explicit channel lists -/

/-- **C3 counterexample**: with an explicit channel list, `selectChannels`
keeps a channel whose registered notifier is *disabled* — the selection is
intersected with the registered channels, not with the enabled ones, so a
disabled channel can be in the selected set, contrary to the claim. -/
theorem C3_explicit_channels_cex :
    selectChannels c3Router "msg" { channels := some ["telegram"] } =
      ["telegram"] ∧
    findNotifier c3Router "telegram" = some c3Disabled ∧
    c3Disabled.enabled = false := by
  decide

/-- **C3 (amended)**: when the caller supplies an explicit channel list,
`selectChannels` returns exactly that list filtered to *registered*
notifiers, and the rule set is never consulted (replacing it by any other
rule list gives the same selection). Registered-but-disabled channels stay
in the selection; they only fail later inside `sendToChannel`. -/
theorem C3_explicit_channels_amended (r : Router) (m : String)
    (o : NotifyOptions) (chs : List String) (rules' : List Rule)
    (h : o.channels = some chs) :
    selectChannels r m o = chs.filter (fun ch => hasNotifier r ch) ∧
    selectChannels { r with rules := rules' } m o =
      chs.filter (fun ch => hasNotifier r ch) := by
  exact ⟨selectChannels_explicit r m o chs h,
    selectChannels_explicit { r with rules := rules' } m o chs h⟩

/-- **C3 witness**: the amended theorem applied to a concrete router: of
the requested `["telegram", "zulip"]` only the registered `"telegram"`
survives, with or without a rule pointing elsewhere. -/
theorem C3_explicit_channels_witness :
    c3Opts.channels = some ["telegram", "zulip"] ∧
    selectChannels c3Router "msg" c3Opts =
      (["telegram", "zulip"].filter (fun ch => hasNotifier c3Router ch)) ∧
    selectChannels { c3Router with rules := [c3Rule] } "msg" c3Opts =
      (["telegram", "zulip"].filter (fun ch => hasNotifier c3Router ch)) :=
  ⟨rfl,
   (C3_explicit_channels_amended c3Router "msg" c3Opts _ [c3Rule] rfl).1,
   (C3_explicit_channels_amended c3Router "msg" c3Opts _ [c3Rule] rfl).2⟩

/-! ## C7 — fallback selection when no rule matches -/

/-- **C7 counterexample**: with no rules and no default channels, the final
fallback picks the *first registered* notifier — here the disabled
`"telegram"` — even though the enabled `"discord"` is available, contrary
to the claim that the fallback is the first *enabled* channel. -/
theorem C7_fallback_cex :
    selectChannels c7Router "msg" {} = ["telegram"] ∧
    findNotifier c7Router "telegram" = some c3Disabled ∧
    c3Disabled.enabled = false ∧
    findNotifier c7Router "discord" = some c3Enabled ∧
    c3Enabled.enabled = true := by
  decide

/-- **C7 (amended)**: for a notification matched by no rule (and no explicit
channel list), `selectChannels` returns the configured default channels
restricted to registered notifiers; if that set is empty it returns the
first *registered* notifier's name (in registration order, regardless of
its enabled flag), so the selection is nonempty whenever at least one
notifier is registered. -/
theorem C7_fallback_amended (r : Router) (m : String) (o : NotifyOptions)
    (hch : o.channels = none)
    (hrules : ∀ ru ∈ r.rules, matchRule ru m o = false) :
    selectChannels r m o = fallbackChannels r ∧
    (r.notifiers ≠ [] → selectChannels r m o ≠ []) := by
  have hmain : selectChannels r m o = fallbackChannels r := by
    simp only [selectChannels, hch, fallbackChannels,
      rulesFold_empty r m o r.rules hrules]
    cases hd : r.config.defaultChannels with
    | none => rfl
    | some ds => rfl
  refine ⟨hmain, fun hne => ?_⟩
  rw [hmain]
  unfold fallbackChannels
  cases hn : r.notifiers with
  | nil => exact absurd hn hne
  | cons n rest =>
    dsimp only
    split
    · simp
    · rename_i hfalse
      intro hnil
      rw [hnil] at hfalse
      exact hfalse rfl

/-- **C7 witness**: the amended theorem at a concrete router whose single
rule does not match an `info` notification: the fallback is the first
registered notifier and the selection is nonempty. -/
theorem C7_fallback_witness :
    (∀ ru ∈ c7Router'.rules,
      matchRule ru "disk is full" { type := some "info" } = false) ∧
    selectChannels c7Router' "disk is full" { type := some "info" } =
      fallbackChannels c7Router' ∧
    (c7Router'.notifiers ≠ [] →
      selectChannels c7Router' "disk is full" { type := some "info" } ≠ []) := by
  have h : ∀ ru ∈ c7Router'.rules,
      matchRule ru "disk is full" { type := some "info" } = false := by decide
  exact ⟨h, (C7_fallback_amended c7Router' "disk is full" _ rfl h).1,
    (C7_fallback_amended c7Router' "disk is full" _ rfl h).2⟩

/-! ## C6 — DND exception bypass -/

/-- **C6**: with DND enabled and `sleepHours = {23:00, 07:00}` (a range
wrapping midnight), a notification whose priority is in the `exceptions`
list is never suppressed (at any current time), while at 02:00 a `"low"`
priority notification outside the exceptions list is suppressed by the
sleep-hours check. -/
theorem C6_dnd_exception_bypass (dnd : DndMode) (m : String)
    (o : NotifyOptions) (p t : String) (hen : dnd.enabled = true)
    (hs1 : dnd.sleepStart = "23:00") (hs2 : dnd.sleepEnd = "07:00") :
    (o.priority = some p → p ∈ dnd.exceptions →
      shouldSuppressNotification dnd m o t = false) ∧
    (o.priority = some "low" → "low" ∉ dnd.exceptions →
      shouldSuppressNotification dnd m o "02:00" = true) := by
  constructor
  · intro hp hmem
    have hc : dnd.exceptions.contains p = true := by
      simpa using hmem
    simp only [shouldSuppressNotification, hen, hp, hc]
    simp
  · intro hp hnm
    have hc : dnd.exceptions.contains "low" = false := by
      simpa using hnm
    have hr : isInTimeRange "02:00" dnd.sleepStart dnd.sleepEnd = true := by
      rw [hs1, hs2]; decide
    simp only [shouldSuppressNotification, hen, hp, hc, hr]
    simp

/-- **C6 witness**: the theorem at the source's default DND configuration
(`exceptions = ["critical", "error"]`) and current time 02:00. -/
theorem C6_dnd_exception_bypass_witness :
    c6Dnd.enabled = true ∧
    shouldSuppressNotification c6Dnd "hello" { priority := some "critical" }
      "02:00" = false ∧
    shouldSuppressNotification c6Dnd "hello" { priority := some "low" }
      "02:00" = true :=
  ⟨rfl,
   (C6_dnd_exception_bypass c6Dnd "hello" { priority := some "critical" }
      "critical" "02:00" rfl rfl rfl).1 rfl (by decide),
   (C6_dnd_exception_bypass c6Dnd "hello" { priority := some "low" }
      "low" "02:00" rfl rfl rfl).2 rfl (by decide)⟩

/-! ## C9 — invalid rate-limit configuration at startup -/

/-- **C9 counterexample**: a configuration whose rate limits carry the
invalid `window = 0` (and even `max = 0`, which the spec calls "always
blocked") is *not* rejected: `init` builds a normal router from it, and at
runtime `notify` admits and dispatches through that channel. -/
theorem C9_invalid_window_cex :
    initRouter c9Cfg =
      ⟨⟨some ⟨0, 0⟩, none⟩, [], [⟨"discord", true, some ⟨0, 0⟩, true⟩],
       [], []⟩ ∧
    (notify (initRouter c9Cfg) "msg" c9Opts 0).1 = .dispatched 1 0 1 := by
  decide

/-- **C9 (amended)**: the constructor and `init` perform no rate-limit
validation (there is no failure path — `initRouter` is total), and on the
freshly initialized router a configuration whose windows are all `≤ 0`
never blocks anything: the admission check compares `now` against the
default `now + window`, which is never in the future. -/
theorem C9_invalid_window_amended (cfg : InitConfig) (chs : List String)
    (now : Int)
    (hg : ∀ l, cfg.globalRateLimit = some l → l.window ≤ 0)
    (hc : ∀ n ∈ (initRouter cfg).notifiers, ∀ l, n.rateLimit = some l →
      l.window ≤ 0) :
    isRateLimited (initRouter cfg) chs now = false := by
  have hblock : ∀ (key : String) (l : RateLimitConfig), l.window ≤ 0 →
      limitBlocked (initRouter cfg).rateLimits key l now = false := by
    intro key l hw
    have hrec : recordOrDefault (initRouter cfg).rateLimits key l.window now =
        ⟨0, now + l.window⟩ := rfl
    simp only [limitBlocked, hrec, Bool.and_eq_false_iff,
      decide_eq_false_iff_not, not_lt]
    left
    omega
  unfold isRateLimited
  rw [Bool.or_eq_false_iff]
  constructor
  · cases hgl : (initRouter cfg).config.globalRateLimit with
    | none => rfl
    | some l =>
      exact hblock "global" l (hg l hgl)
  · rw [List.any_eq_false]
    intro ch _
    cases hf : findNotifier (initRouter cfg) ch with
    | none => simp
    | some n =>
      dsimp only
      cases hl : n.rateLimit with
      | none => simp
      | some l =>
        have hf' : (initRouter cfg).notifiers.find?
            (fun x => x.name == ch) = some n := hf
        have hmem : n ∈ (initRouter cfg).notifiers :=
          List.mem_of_find?_eq_some hf'
        simp [hblock ("channel:" ++ ch) l (hc n hmem l hl)]

/-- **C9 witness**: the amended theorem at the concrete invalid
configuration: nothing is ever rate-limited on the resulting router. -/
theorem C9_invalid_window_witness :
    (∀ l, c9Cfg.globalRateLimit = some l → l.window ≤ 0) ∧
    isRateLimited (initRouter c9Cfg) ["discord"] 0 = false := by
  have hg : ∀ l, c9Cfg.globalRateLimit = some l → l.window ≤ 0 := by
    intro l hl
    have : (⟨0, 0⟩ : RateLimitConfig) = l := by
      simpa [c9Cfg] using hl
    rw [← this]
  refine ⟨hg, C9_invalid_window_amended c9Cfg ["discord"] 0 hg ?_⟩
  intro n hn l hl
  have hn' : n = ⟨"discord", true, some ⟨0, 0⟩, true⟩ := by
    simpa [initRouter, c9Cfg, registerSection] using hn
  rw [hn'] at hl
  have : (⟨0, 0⟩ : RateLimitConfig) = l := by simpa using hl
  rw [← this]

/-! ## C8 — admission check is pure; commit happens only on dispatch -/

/-- **C8**: the rate-limit map after a `notify` call: unchanged when no
channel was selected or when the admission check blocked the batch (a
blocked batch never consumes budget — the check itself is a pure read, as
`isRateLimited` never stores its locally-built default records), and equal
to the `updateRateLimits` commit exactly when the batch was dispatched. -/
theorem C8_rate_limit_commit (r : Router) (m : String) (o : NotifyOptions)
    (now : Int) :
    (notify r m o now).2.rateLimits =
      (if (selectChannels r m o).isEmpty then r.rateLimits
       else if isRateLimited r (selectChannels r m o) now then r.rateLimits
       else (updateRateLimits r (selectChannels r m o) now).rateLimits) := by
  simp only [notify]
  split
  · rfl
  · split
    · rfl
    · rfl

/-! ## C2 — partial failure isolation -/

/-- **C2**: dispatching one notification to explicit channels `[A, B]`
where A's adapter `send` throws and B's succeeds yields
`{successful: 1, failed: 1, total: 2}`; the rejection of A's promise is
absorbed by `Promise.allSettled`, so B is still sent and `notify` itself
returns normally (in the embedding `notify` is a total function — it has
no throwing path at all). -/
theorem C2_partial_failure_isolation (r : Router) (m : String)
    (o : NotifyOptions) (now : Int) (a b : String) (na nb : Notifier)
    (hch : o.channels = some [a, b])
    (hna : findNotifier r a = some na) (hnb : findNotifier r b = some nb)
    (hea : na.enabled = true) (heb : nb.enabled = true)
    (hfa : na.sendOk = false) (hsb : nb.sendOk = true)
    (hnl : isRateLimited r [a, b] now = false) :
    (notify r m o now).1 = .dispatched 1 1 2 := by
  have hsel : selectChannels r m o = [a, b] := by
    rw [selectChannels_explicit r m o _ hch]
    simp [hasNotifier, hna, hnb]
  have hsa : sendToChannel r a = false := by
    simp [sendToChannel, hna, hea, hfa]
  have hsb' : sendToChannel r b = true := by
    simp [sendToChannel, hnb, heb, hsb]
  simp [notify, hsel, hnl, hsa, hsb', List.count_cons]

/-- **C2 witness**: the theorem at a concrete two-channel router whose
first adapter throws. -/
theorem C2_partial_failure_isolation_witness :
    isRateLimited c2Router ["discord", "slack"] 0 = false ∧
    (notify c2Router "msg" c2Opts 0).1 = .dispatched 1 1 2 :=
  ⟨by decide,
   C2_partial_failure_isolation c2Router "msg" c2Opts 0 "discord" "slack"
     c2NotifierA c2NotifierB rfl (by decide) (by decide) rfl rfl rfl rfl
     (by decide)⟩

/-! ## C5 — drain behaviour on a still-limited head -/

/-- One blocked iteration of the `processQueue` loop: the still-limited
head stays at the head, the loop sleeps one second and goes on within the
same invocation with the state otherwise untouched. -/
lemma drain_blocked_step (fuel : Nat) (r : Router) (now : Int)
    (item : QueueItem) (t : List QueueItem) (hq : r.messageQueue = item :: t)
    (hb : isRateLimited r item.channels now = true) :
    processQueueAux (fuel + 1) r now = processQueueAux fuel r (now + 1000) := by
  conv_lhs => rw [processQueueAux, hq]
  dsimp only
  rw [hb]
  simp

/-- **C5 counterexample**: a drain invocation whose head is still
rate-limited does *not* move it to the tail of the queue — after the
blocked iteration the queue is unchanged (head first) — and does not stop
the drain for that tick: the same invocation goes on (sleeping 1 s at a
time) and dispatches that very head once its window expires. -/
theorem C5_drain_requeue_cex :
    (processQueueAux 1 c5Router 0).1.messageQueue = [c5Item1, c5Item2] ∧
    [c5Item1, c5Item2] ≠ [c5Item2, c5Item1] ∧
    (processQueueAux 3 c5Router 0).2.2 = [c5Item1] := by
  decide

/-- **C5 (amended)**: a drain iteration whose head item is still
rate-limited keeps the item at the *head* of the queue (it is never
dropped), waits 1000 ms and retries the same head within the same
invocation — it does not defer to the next periodic tick. -/
theorem C5_drain_retry_amended (fuel : Nat) (r : Router) (now : Int)
    (item : QueueItem) (t : List QueueItem) (hq : r.messageQueue = item :: t)
    (hb : isRateLimited r item.channels now = true) :
    processQueueAux (fuel + 1) r now = processQueueAux fuel r (now + 1000) :=
  drain_blocked_step fuel r now item t hq hb

/-- **C5 witness**: the amended theorem at the concrete blocked router. -/
theorem C5_drain_retry_witness :
    c5Router.messageQueue = [c5Item1, c5Item2] ∧
    isRateLimited c5Router c5Item1.channels 0 = true ∧
    processQueueAux 1 c5Router 0 = processQueueAux 0 c5Router 1000 :=
  ⟨rfl, by decide,
   C5_drain_retry_amended 0 c5Router 0 c5Item1 [c5Item2] rfl (by decide)⟩

/-! ## C4 — aggregation flush conditions and summary shape -/

/-- **C4 counterexample**: with `maxSize = 2` the arrival of a second,
*dissimilar* notification flushes the whole pending pool although neither
similarity group has reached `maxSize` members (each has exactly one) and
neither window has elapsed; the flushed singleton notifications carry no
`aggregated: true` mark; and for a genuine 2-member group the summary
suffix names `1` (that is N−1) further similar messages, not N. -/
theorem C4_aggregation_flush_cex :
    aggregateNotifications c4Cfg [c4Pending] "beta" {} 1 =
      .flushed [⟨"alpha", {}⟩, ⟨"beta", {}⟩] ∧
    ([c4Pending] : List PendingNote).length < c4Cfg.maxSize ∧
    (1 : Int) - c4Pending.timestamp < c4Cfg.window ∧
    (⟨"alpha", {}⟩ : SummaryNote).options.aggregated = false ∧
    summaryText "x" 2 =
      "📦 聚合通知 (2条)\n\nx\n\n... 以及 1 条类似通知" := by
  decide

/-- **C4 (amended)**: a flush of the aggregation buffer is triggered when
the *total* pending count reaches `maxSize` (not a per-group count), or by
the window timer / periodic driver once the *oldest* pending notification
is `window` old; a flush then sends one notification per similarity group:
a group of N ≥ 2 members yields one summary whose text is a header naming
N, the representative text and a suffix naming N−1 further similar
messages, with options `aggregated = true` and `count = N`, while a
singleton group is re-sent unchanged without the aggregated mark. -/
theorem C4_aggregation_flush_amended (cfg : AggregationConfig)
    (pending : List PendingNote) (m : String) (o : AggOptions) (now : Int)
    (n : PendingNote) (rest : List PendingNote) (hen : cfg.enabled = true) :
    (aggregateNotifications cfg pending m o now =
      if cfg.maxSize ≤ pending.length + 1 then
        .flushed (flushAggregatedNotifications cfg (pending ++ [⟨m, o, now⟩]))
      else .held (pending ++ [⟨m, o, now⟩])) ∧
    (executeFlushes cfg pending now = true ↔
      ∃ oldest rest', pending = oldest :: rest' ∧
        cfg.window ≤ now - oldest.timestamp) ∧
    (generateSummary (n :: rest) =
      if rest.isEmpty then ⟨n.message, n.options⟩
      else ⟨summaryText n.message (rest.length + 1),
            { n.options with aggregated := true,
                             count := some (rest.length + 1) }⟩) := by
  refine ⟨?_, ?_, ?_⟩
  · simp only [aggregateNotifications, hen]
    simp
  · cases pending with
    | nil => simp [executeFlushes]
    | cons oldest rest' =>
      simp [executeFlushes]
  · cases rest with
    | nil => rfl
    | cons x xs => rfl

/-- **C4 witness**: the amended theorem instantiated concretely: the
two-dissimilar-messages flush, the periodic window flush at `t = 300000`,
and the exact summary for a two-member group. -/
theorem C4_aggregation_flush_witness :
    aggregateNotifications c4Cfg [c4Pending] "beta" {} 1 =
      .flushed [⟨"alpha", {}⟩, ⟨"beta", {}⟩] ∧
    executeFlushes c4Cfg [c4Pending] 300000 = true ∧
    generateSummary [⟨"x", {}, 0⟩, ⟨"x", {}, 3⟩] =
      ⟨summaryText "x" 2, { aggregated := true, count := some 2 }⟩ := by
  refine ⟨?_, ?_, ?_⟩
  · have h := (C4_aggregation_flush_amended c4Cfg [c4Pending] "beta" {} 1
      c4Pending [] rfl).1
    rw [h]
    decide
  · have h := (C4_aggregation_flush_amended c4Cfg [c4Pending] "beta" {}
      300000 c4Pending [] rfl).2.1
    rw [h]
    exact ⟨c4Pending, [], rfl, by decide⟩
  · have h := (C4_aggregation_flush_amended c4Cfg [] "beta" {} 1
      ⟨"x", {}, 0⟩ [⟨"x", {}, 3⟩] rfl).2.2
    rw [h]
    decide

/-! ## Generic `notify` branch lemmas -/

/-- The dispatch branch of `notify`, spelled out: when the selection is
nonempty and admitted, the outcome tally comes from `sendToChannel` and the
state change is exactly the `updateRateLimits` commit. -/
lemma notify_dispatch_eq (r : Router) (m : String) (o : NotifyOptions)
    (now : Int) (chs : List String) (hsel : selectChannels r m o = chs)
    (hne : chs ≠ []) (hnl : isRateLimited r chs now = false) :
    notify r m o now =
      (.dispatched ((chs.map (fun ch => sendToChannel r ch)).count true)
        ((chs.map (fun ch => sendToChannel r ch)).count false) chs.length,
       updateRateLimits r chs now) := by
  have hempty : chs.isEmpty = false := by
    cases chs with
    | nil => exact absurd rfl hne
    | cons a l => rfl
  simp only [notify, hsel, hempty, hnl, Bool.false_eq_true, if_false]

/-- The rate-limited branch of `notify`: the batch is appended to the
message queue and nothing else changes. -/
lemma notify_queued_eq (r : Router) (m : String) (o : NotifyOptions)
    (now : Int) (chs : List String) (hsel : selectChannels r m o = chs)
    (hne : chs ≠ []) (hrl : isRateLimited r chs now = true) :
    notify r m o now =
      (.rateLimitedQueued,
       { r with messageQueue := r.messageQueue ++ [⟨m, o, chs⟩] }) := by
  have hempty : chs.isEmpty = false := by
    cases chs with
    | nil => exact absurd rfl hne
    | cons a l => rfl
  simp only [notify, hsel, hempty, hrl, Bool.false_eq_true, if_false,
    if_true]

/-- `isRateLimited` over a single channel with no global limit is the
per-channel blocking test. -/
lemma isRateLimited_single (r : Router) (ch : String) (n : Notifier)
    (cfg : RateLimitConfig) (now : Int)
    (hg : r.config.globalRateLimit = none)
    (hf : findNotifier r ch = some n) (hl : n.rateLimit = some cfg) :
    isRateLimited r [ch] now =
      limitBlocked r.rateLimits ("channel:" ++ ch) cfg now := by
  simp only [isRateLimited, hg, List.any_cons, List.any_nil, hf, hl,
    Bool.or_false, Bool.false_or]

/-- `updateRateLimits` over a single channel with no global limit bumps
exactly that channel's record. -/
lemma updateRateLimits_single (r : Router) (ch : String) (n : Notifier)
    (cfg : RateLimitConfig) (now : Int)
    (hg : r.config.globalRateLimit = none)
    (hf : findNotifier r ch = some n) (hl : n.rateLimit = some cfg) :
    updateRateLimits r [ch] now =
      { r with rateLimits := bumpRecord r.rateLimits ("channel:" ++ ch) cfg now } := by
  simp only [updateRateLimits, hg, List.foldl_cons, hf, hl, List.foldl_nil]

/-- An absent record never blocks a limit with `max ≥ 1`: the default
record has count `0`. -/
lemma limitBlocked_nil (key : String) (mx : Nat) (w now : Int)
    (hmax : 1 ≤ mx) :
    limitBlocked [] key ⟨mx, w⟩ now = false := by
  unfold limitBlocked recordOrDefault lookupRecord
  simp only [Option.getD_none]
  rw [decide_eq_false (by omega : ¬(mx ≤ 0))]
  exact Bool.and_false _

/-- The blocking test against a singleton map holding the key. -/
lemma limitBlocked_single (k : String) (c : Nat) (ra now : Int) (mx : Nat)
    (w : Int) :
    limitBlocked [(k, ⟨c, ra⟩)] k ⟨mx, w⟩ now =
      (decide (now < ra) && decide (mx ≤ c)) := by
  unfold limitBlocked recordOrDefault lookupRecord
  simp

/-- Bumping an absent record creates `{count: 1, resetAt: now + window}`
(for a positive window the reset branch is not taken; the result is the
same either way). -/
lemma bumpRecord_nil (k : String) (mx : Nat) (w now : Int) :
    bumpRecord [] k ⟨mx, w⟩ now = [(k, ⟨1, now + w⟩)] := by
  unfold bumpRecord recordOrDefault lookupRecord setRecord
  dsimp only
  by_cases h : now + w ≤ now
  · simp [h]
  · simp [h]

/-- Bumping a still-live record increments its count and keeps `resetAt`. -/
lemma bumpRecord_single_live (k : String) (c : Nat) (ra now : Int) (mx : Nat)
    (w : Int) (h : ¬(ra ≤ now)) :
    bumpRecord [(k, ⟨c, ra⟩)] k ⟨mx, w⟩ now = [(k, ⟨c + 1, ra⟩)] := by
  unfold bumpRecord recordOrDefault lookupRecord setRecord
  simp [h]

/-! ## C1 — rate-limit window scenario -/

/-- One admitted-and-dispatched step on the fresh C1 router: the result is
a full success and the channel record becomes `{count: 1, resetAt: tn + 60000}`. -/
lemma c1_notify_fresh (m : String) (tn : Int) :
    notify c1Router m c1Opts tn =
      (.dispatched 1 0 1, c1RouterAt 1 (tn + 60000) []) := by
  have hf : findNotifier c1Router "telegram" = some c1Notifier := rfl
  have hrl : isRateLimited c1Router ["telegram"] tn = false := by
    rw [isRateLimited_single c1Router "telegram" c1Notifier ⟨3, 60000⟩ tn rfl
      hf rfl]
    exact limitBlocked_nil _ 3 60000 tn (by omega)
  rw [notify_dispatch_eq c1Router m c1Opts tn ["telegram"] rfl
    (by simp) hrl]
  rw [updateRateLimits_single c1Router "telegram" c1Notifier ⟨3, 60000⟩ tn rfl
    hf rfl]
  rw [show c1Router.rateLimits = [] from rfl, bumpRecord_nil]
  rfl

/-- One admitted-and-dispatched step while the window is live with
`count < 3`: the count advances by one and `resetAt` is unchanged. -/
lemma c1_notify_live (m : String) (tn : Int) (c : Nat) (ra : Int)
    (q : List QueueItem) (hlt : tn < ra) (hc : c < 3) :
    notify (c1RouterAt c ra q) m c1Opts tn =
      (.dispatched 1 0 1, c1RouterAt (c + 1) ra q) := by
  have hf : findNotifier (c1RouterAt c ra q) "telegram" = some c1Notifier := rfl
  have hrl : isRateLimited (c1RouterAt c ra q) ["telegram"] tn = false := by
    rw [isRateLimited_single (c1RouterAt c ra q) "telegram" c1Notifier
      ⟨3, 60000⟩ tn rfl hf rfl]
    rw [show (c1RouterAt c ra q).rateLimits = [("channel:telegram", ⟨c, ra⟩)]
      from rfl]
    rw [show ("channel:" ++ "telegram" : String) = "channel:telegram" from rfl]
    rw [limitBlocked_single]
    rw [decide_eq_false (by omega : ¬(3 ≤ c))]
    exact Bool.and_false _
  rw [notify_dispatch_eq (c1RouterAt c ra q) m c1Opts tn ["telegram"] rfl
    (by simp) hrl]
  rw [updateRateLimits_single (c1RouterAt c ra q) "telegram" c1Notifier
    ⟨3, 60000⟩ tn rfl hf rfl]
  rw [show (c1RouterAt c ra q).rateLimits = [("channel:telegram", ⟨c, ra⟩)]
    from rfl]
  rw [show ("channel:" ++ "telegram" : String) = "channel:telegram" from rfl]
  rw [bumpRecord_single_live _ _ _ _ _ _ (by omega)]
  rfl

/-- A blocked step while the window is live with `count = 3`: the call is
queued and the rate-limit state is untouched. -/
lemma c1_notify_blocked (m : String) (tn ra : Int) (q : List QueueItem)
    (hlt : tn < ra) :
    notify (c1RouterAt 3 ra q) m c1Opts tn =
      (.rateLimitedQueued,
       c1RouterAt 3 ra (q ++ [⟨m, c1Opts, ["telegram"]⟩])) := by
  have hf : findNotifier (c1RouterAt 3 ra q) "telegram" = some c1Notifier := rfl
  have hrl : isRateLimited (c1RouterAt 3 ra q) ["telegram"] tn = true := by
    rw [isRateLimited_single (c1RouterAt 3 ra q) "telegram" c1Notifier
      ⟨3, 60000⟩ tn rfl hf rfl]
    rw [show (c1RouterAt 3 ra q).rateLimits = [("channel:telegram", ⟨3, ra⟩)]
      from rfl]
    rw [show ("channel:" ++ "telegram" : String) = "channel:telegram" from rfl]
    rw [limitBlocked_single]
    rw [decide_eq_true hlt, decide_eq_true (by omega : (3 : Nat) ≤ 3)]
    rfl
  rw [notify_queued_eq (c1RouterAt 3 ra q) m c1Opts tn ["telegram"] rfl
    (by simp) hrl]
  rfl

/-- **C1**: on a channel with `rateLimit {max: 3, window: 60000}`, four
`notify` calls at `t1 ≤ t2 ≤ t3 ≤ t4 < t1 + 60000` dispatch exactly the
first three and queue the fourth; any admission check at or past the reset
instant `t1 + 60000` no longer blocks the channel. -/
theorem C1_rate_limit_window (t1 t2 t3 t4 t : Int) (m1 m2 m3 m4 : String)
    (h12 : t1 ≤ t2) (h23 : t2 ≤ t3) (h34 : t3 ≤ t4) (hin : t4 < t1 + 60000)
    (ht : t1 + 60000 ≤ t) :
    (notify c1Router m1 c1Opts t1).1 = .dispatched 1 0 1 ∧
    (notify (c1Step m1 t1 c1Router) m2 c1Opts t2).1 = .dispatched 1 0 1 ∧
    (notify (c1Step m2 t2 (c1Step m1 t1 c1Router)) m3 c1Opts t3).1 =
      .dispatched 1 0 1 ∧
    (notify (c1Step m3 t3 (c1Step m2 t2 (c1Step m1 t1 c1Router))) m4 c1Opts
      t4).1 = .rateLimitedQueued ∧
    (c1Step m4 t4 (c1Step m3 t3 (c1Step m2 t2 (c1Step m1 t1
      c1Router)))).messageQueue = [⟨m4, c1Opts, ["telegram"]⟩] ∧
    isRateLimited (c1Step m4 t4 (c1Step m3 t3 (c1Step m2 t2 (c1Step m1 t1
      c1Router)))) ["telegram"] t = false := by
  have e1 : c1Step m1 t1 c1Router = c1RouterAt 1 (t1 + 60000) [] := by
    unfold c1Step
    rw [c1_notify_fresh]
  have e2 : c1Step m2 t2 (c1Step m1 t1 c1Router) =
      c1RouterAt 2 (t1 + 60000) [] := by
    rw [e1]
    unfold c1Step
    rw [c1_notify_live m2 t2 1 (t1 + 60000) [] (by omega) (by omega)]
  have e3 : c1Step m3 t3 (c1Step m2 t2 (c1Step m1 t1 c1Router)) =
      c1RouterAt 3 (t1 + 60000) [] := by
    rw [e2]
    unfold c1Step
    rw [c1_notify_live m3 t3 2 (t1 + 60000) [] (by omega) (by omega)]
  have e4 : c1Step m4 t4 (c1Step m3 t3 (c1Step m2 t2 (c1Step m1 t1
      c1Router))) =
      c1RouterAt 3 (t1 + 60000) [⟨m4, c1Opts, ["telegram"]⟩] := by
    rw [e3]
    unfold c1Step
    rw [c1_notify_blocked m4 t4 (t1 + 60000) [] (by omega)]
    rfl
  refine ⟨?_, ?_, ?_, ?_, ?_, ?_⟩
  · rw [c1_notify_fresh]
  · rw [e1, c1_notify_live m2 t2 1 (t1 + 60000) [] (by omega) (by omega)]
  · rw [e2, c1_notify_live m3 t3 2 (t1 + 60000) [] (by omega) (by omega)]
  · rw [e3, c1_notify_blocked m4 t4 (t1 + 60000) [] (by omega)]
  · rw [e4]
    rfl
  · rw [e4]
    have hf : findNotifier
        (c1RouterAt 3 (t1 + 60000) [⟨m4, c1Opts, ["telegram"]⟩]) "telegram" =
        some c1Notifier := rfl
    rw [isRateLimited_single _ "telegram" c1Notifier ⟨3, 60000⟩ t rfl hf rfl]
    rw [show (c1RouterAt 3 (t1 + 60000)
      [⟨m4, c1Opts, ["telegram"]⟩]).rateLimits =
      [("channel:telegram", ⟨3, t1 + 60000⟩)] from rfl]
    rw [show ("channel:" ++ "telegram" : String) = "channel:telegram" from rfl]
    rw [limitBlocked_single]
    rw [decide_eq_false (by omega : ¬(t < t1 + 60000))]
    exact Bool.false_and _

/-- **C1 witness**: the theorem at the concrete instants
`0, 1, 2, 3` with the recheck at the reset instant `60000`. -/
theorem C1_rate_limit_window_witness :
    (notify c1Router "a" c1Opts 0).1 = .dispatched 1 0 1 ∧
    (notify (c1Step "a" 0 c1Router) "b" c1Opts 1).1 = .dispatched 1 0 1 ∧
    (notify (c1Step "b" 1 (c1Step "a" 0 c1Router)) "c" c1Opts 2).1 =
      .dispatched 1 0 1 ∧
    (notify (c1Step "c" 2 (c1Step "b" 1 (c1Step "a" 0 c1Router))) "d" c1Opts
      3).1 = .rateLimitedQueued ∧
    (c1Step "d" 3 (c1Step "c" 2 (c1Step "b" 1 (c1Step "a" 0
      c1Router)))).messageQueue = [⟨"d", c1Opts, ["telegram"]⟩] ∧
    isRateLimited (c1Step "d" 3 (c1Step "c" 2 (c1Step "b" 1 (c1Step "a" 0
      c1Router)))) ["telegram"] 60000 = false :=
  C1_rate_limit_window 0 1 2 3 60000 "a" "b" "c" "d" (by decide) (by decide)
    (by decide) (by decide) (by decide)

/-! ## C10 — queue liveness -/

/-- A stored record's `resetAt` is bounded by `maxReset`. -/
lemma lookupRecord_resetAt_le (limits : List (String × RateRecord))
    (key : String) (rec : RateRecord) (h : lookupRecord limits key = some rec) :
    rec.resetAt ≤ maxReset limits := by
  induction limits with
  | nil => simp [lookupRecord] at h
  | cons kv rest ih =>
    obtain ⟨k, v⟩ := kv
    rw [lookupRecord] at h
    rw [maxReset]
    by_cases hk : k = key
    · rw [if_pos hk] at h
      injection h with h'
      rw [← h']
      exact le_max_left _ _
    · rw [if_neg hk] at h
      exact le_trans (ih h) (le_max_right _ _)

/-- The global `max ≥ 1` bound extracted from `positiveLimits`. -/
lemma positiveLimits_global (r : Router) (hp : positiveLimits r = true)
    (l : RateLimitConfig) (hg : r.config.globalRateLimit = some l) :
    1 ≤ l.max := by
  unfold positiveLimits at hp
  rw [hg, Bool.and_eq_true] at hp
  exact of_decide_eq_true hp.1

/-- The per-channel `max ≥ 1` bound extracted from `positiveLimits`. -/
lemma positiveLimits_channel (r : Router) (hp : positiveLimits r = true)
    (n : Notifier) (hn : n ∈ r.notifiers) (l : RateLimitConfig)
    (hl : n.rateLimit = some l) : 1 ≤ l.max := by
  unfold positiveLimits at hp
  rw [Bool.and_eq_true] at hp
  have h2 := hp.2
  rw [List.all_eq_true] at h2
  have h3 : (match n.rateLimit with
      | some l => decide (1 ≤ l.max)
      | none => true) = true := h2 n hn
  rw [hl] at h3
  exact of_decide_eq_true h3

/-- Once `now` has reached every stored `resetAt`, a limit with `max ≥ 1`
cannot block: stored records are expired and absent records count `0`. -/
lemma limitBlocked_false_of_expired (limits : List (String × RateRecord))
    (key : String) (cfg : RateLimitConfig) (now : Int) (hmax : 1 ≤ cfg.max)
    (hge : maxReset limits ≤ now) :
    limitBlocked limits key cfg now = false := by
  unfold limitBlocked recordOrDefault
  cases h : lookupRecord limits key with
  | none =>
    simp only [Option.getD_none]
    rw [decide_eq_false (by omega : ¬(cfg.max ≤ 0))]
    exact Bool.and_false _
  | some rec =>
    simp only [Option.getD_some]
    have hle := lookupRecord_resetAt_le limits key rec h
    rw [decide_eq_false (by omega : ¬(now < rec.resetAt))]
    exact Bool.false_and _

/-- Once `now` has reached every stored `resetAt`, nothing is rate-limited
(given `positiveLimits`). -/
lemma isRateLimited_false_of_expired (r : Router) (chs : List String)
    (now : Int) (hp : positiveLimits r = true)
    (hge : maxReset r.rateLimits ≤ now) :
    isRateLimited r chs now = false := by
  unfold isRateLimited
  rw [Bool.or_eq_false_iff]
  constructor
  · cases hg : r.config.globalRateLimit with
    | none => rfl
    | some l =>
      exact limitBlocked_false_of_expired _ _ _ _
        (positiveLimits_global r hp l hg) hge
  · rw [List.any_eq_false]
    intro ch _
    cases hf : findNotifier r ch with
    | none => simp
    | some n =>
      dsimp only
      cases hl : n.rateLimit with
      | none => simp
      | some l =>
        have hmem : n ∈ r.notifiers := List.mem_of_find?_eq_some
          (show r.notifiers.find? (fun x => x.name == ch) = some n from hf)
        simp [limitBlocked_false_of_expired r.rateLimits ("channel:" ++ ch) l
          now (positiveLimits_channel r hp n hmem l hl) hge]

/-- The head facts packed into `goodQueue`. -/
lemma goodQueue_head (r : Router) (item : QueueItem) (t : List QueueItem)
    (hq : r.messageQueue = item :: t) (hg : goodQueue r = true) :
    item.channels ≠ [] ∧ ∀ ch ∈ item.channels, hasNotifier r ch = true := by
  have h2 := hg
  unfold goodQueue at h2
  rw [hq, List.all_cons, Bool.and_eq_true] at h2
  obtain ⟨h3, _⟩ := h2
  rw [Bool.and_eq_true] at h3
  obtain ⟨ha, hb⟩ := h3
  constructor
  · intro hnil
    rw [hnil] at ha
    simp at ha
  · intro ch hch
    rw [List.all_eq_true] at hb
    exact hb ch hch

/-- `positiveLimits` is untouched by the commit and by shifting the queue
(it only reads the config and the notifier list). -/
lemma positiveLimits_after (r : Router) (chs : List String) (now : Int)
    (t : List QueueItem) (hp : positiveLimits r = true) :
    positiveLimits
      { updateRateLimits r chs now with messageQueue := t } = true := by
  have h : positiveLimits
      { updateRateLimits r chs now with messageQueue := t } =
      positiveLimits r := rfl
  rw [h, hp]

/-- `goodQueue` carries over to the shifted queue after the commit. -/
lemma goodQueue_tail_after (r : Router) (item : QueueItem)
    (t : List QueueItem) (chs : List String) (now : Int)
    (hq : r.messageQueue = item :: t) (hg : goodQueue r = true) :
    goodQueue { updateRateLimits r chs now with messageQueue := t } = true := by
  have h1 : goodQueue { updateRateLimits r chs now with messageQueue := t } =
      t.all (fun item =>
        !item.channels.isEmpty &&
        item.channels.all (fun ch => hasNotifier r ch)) := rfl
  rw [h1]
  have h2 := hg
  unfold goodQueue at h2
  rw [hq, List.all_cons, Bool.and_eq_true] at h2
  exact h2.2

/-- The empty-queue step of the drain loop. -/
lemma processQueueAux_emptyq (fuel : Nat) (r : Router) (now : Int)
    (h : r.messageQueue = []) :
    processQueueAux fuel r now = (r, now, []) := by
  cases fuel with
  | zero => rfl
  | succ f =>
    conv_lhs => rw [processQueueAux, h]

/-- The admitted step of the drain loop: the head is re-sent through
`notify` (same channels, same admission answer, hence dispatched), the
commit is applied, the head is shifted off, and the head is logged. -/
lemma drain_dispatch_step (fuel : Nat) (r : Router) (now : Int)
    (item : QueueItem) (t : List QueueItem) (hq : r.messageQueue = item :: t)
    (hne : item.channels ≠ [])
    (hreg : ∀ ch ∈ item.channels, hasNotifier r ch = true)
    (hnb : isRateLimited r item.channels now = false) :
    processQueueAux (fuel + 1) r now =
      ((processQueueAux fuel
          { updateRateLimits r item.channels now with messageQueue := t }
          now).1,
       (processQueueAux fuel
          { updateRateLimits r item.channels now with messageQueue := t }
          now).2.1,
       item :: (processQueueAux fuel
          { updateRateLimits r item.channels now with messageQueue := t }
          now).2.2) := by
  have hsel : selectChannels r item.message
      (withChannels item.options item.channels) = item.channels := by
    rw [selectChannels_explicit _ _ _ item.channels rfl]
    exact List.filter_eq_self.mpr hreg
  have hnot := notify_dispatch_eq r item.message
    (withChannels item.options item.channels) now item.channels hsel hne hnb
  have hqq : (updateRateLimits r item.channels now).messageQueue =
      item :: t := by
    rw [show (updateRateLimits r item.channels now).messageQueue =
      r.messageQueue from rfl, hq]
  conv_lhs => rw [processQueueAux, hq]
  dsimp only
  rw [hnb]
  simp only [Bool.false_eq_true, if_false, hnot]
  rw [hqq]
  rfl

/-- Draining a queue whose head will be admitted after at most `k` sleeps:
inner induction for the liveness proof. -/
lemma drain_head (item : QueueItem) (t : List QueueItem)
    (cont : ∀ r2 now2, r2.messageQueue = t → positiveLimits r2 = true →
      goodQueue r2 = true →
      ∃ fuel r' now', processQueueAux fuel r2 now2 = (r', now', t) ∧
        r'.messageQueue = []) :
    ∀ (k : Nat) (r : Router) (now : Int), r.messageQueue = item :: t →
      positiveLimits r = true → goodQueue r = true →
      maxReset r.rateLimits ≤ now + 1000 * k →
      ∃ fuel r' now', processQueueAux fuel r now = (r', now', item :: t) ∧
        r'.messageQueue = [] := by
  have dispatchCase : ∀ (r : Router) (now : Int), r.messageQueue = item :: t →
      positiveLimits r = true → goodQueue r = true →
      isRateLimited r item.channels now = false →
      ∃ fuel r' now', processQueueAux fuel r now = (r', now', item :: t) ∧
        r'.messageQueue = [] := by
    intro r now hq hp hg hnb
    obtain ⟨hne, hreg⟩ := goodQueue_head r item t hq hg
    obtain ⟨fuel, r', now', heq, hemp⟩ :=
      cont { updateRateLimits r item.channels now with messageQueue := t }
        now rfl (positiveLimits_after r item.channels now t hp)
        (goodQueue_tail_after r item t item.channels now hq hg)
    refine ⟨fuel + 1, r', now', ?_, hemp⟩
    rw [drain_dispatch_step fuel r now item t hq hne hreg hnb, heq]
  intro k
  induction k with
  | zero =>
    intro r now hq hp hg hk
    exact dispatchCase r now hq hp hg
      (isRateLimited_false_of_expired r item.channels now hp (by omega))
  | succ k ih =>
    intro r now hq hp hg hk
    by_cases hb : isRateLimited r item.channels now = true
    · obtain ⟨fuel, r', now', heq, hemp⟩ := ih r (now + 1000) hq hp hg
        (by omega)
      refine ⟨fuel + 1, r', now', ?_, hemp⟩
      rw [drain_blocked_step fuel r now item t hq hb]
      exact heq
    · have hnb : isRateLimited r item.channels now = false := by
        cases h : isRateLimited r item.channels now
        · rfl
        · exact absurd h hb
      exact dispatchCase r now hq hp hg hnb

/-- The outer induction of the liveness proof: a well-formed queue drains
completely, logging exactly its items in order. -/
lemma drain_run : ∀ (q : List QueueItem) (r : Router) (now : Int),
    r.messageQueue = q → positiveLimits r = true → goodQueue r = true →
    ∃ fuel r' now', processQueueAux fuel r now = (r', now', q) ∧
      r'.messageQueue = [] := by
  intro q
  induction q with
  | nil =>
    intro r now hq _ _
    exact ⟨0, r, now, rfl, hq⟩
  | cons item t ih =>
    intro r now hq hp hg
    exact drain_head item t (fun r2 now2 h2 p2 g2 => ih r2 now2 h2 p2 g2)
      ((maxReset r.rateLimits - now).toNat) r now hq hp hg (by omega)

/-- **C10 counterexample**: under a global limit with `max = 0` (which the
spec itself documents as "always blocked"), a rate-limited-and-queued
notification is *never* dispatched: after any number of drain steps, at any
clock value, the dispatch log is empty and the item still sits in the
queue, contradicting the unconditional claim. -/
theorem C10_queue_liveness_cex :
    (notify c10Router0 "msg" c10Opts 0).1 = .rateLimitedQueued ∧
    c10Queued.messageQueue = [⟨"msg", c10Opts, ["discord"]⟩] ∧
    (∀ (fuel : Nat) (now : Int),
      (processQueueAux fuel c10Queued now).2.2 = [] ∧
      (processQueueAux fuel c10Queued now).1.messageQueue =
        c10Queued.messageQueue) := by
  refine ⟨by decide, by decide, ?_⟩
  intro fuel
  induction fuel with
  | zero => intro now; exact ⟨rfl, rfl⟩
  | succ f ih =>
    intro now
    have hb : isRateLimited c10Queued
        (⟨"msg", c10Opts, ["discord"]⟩ : QueueItem).channels now = true := by
      have h1 : c10Queued.config.globalRateLimit = some ⟨0, 60000⟩ := rfl
      unfold isRateLimited
      rw [h1]
      dsimp only
      rw [show c10Queued.rateLimits = [] from rfl]
      unfold limitBlocked recordOrDefault lookupRecord
      simp only [Option.getD_none]
      dsimp only
      rw [decide_eq_true (by omega : now < now + 60000),
        decide_eq_true (by omega : (0 : Nat) ≤ 0)]
      rfl
    rw [drain_blocked_step f c10Queued now ⟨"msg", c10Opts, ["discord"]⟩ []
      (by decide) hb]
    exact ih (now + 1000)

/-- **C10 (amended)**: provided every configured rate limit (the global one
and every registered channel's) allows at least one send per window
(`max ≥ 1`), and every queued item has a nonempty list of registered
channels (which is how `notify` queues items), the drain loop run with
enough fuel dispatches *exactly* the queued items, each once, in FIFO
order, and empties the queue: none is lost and none is dispatched twice. -/
theorem C10_queue_liveness_amended (r : Router) (now : Int)
    (hp : positiveLimits r = true) (hg : goodQueue r = true) :
    ∃ fuel r' now', processQueueAux fuel r now = (r', now', r.messageQueue) ∧
      r'.messageQueue = [] :=
  drain_run r.messageQueue r now rfl hp hg

/-- **C10 witness**: the amended theorem at a concrete router with two
queued items behind an exhausted one-per-minute window. -/
theorem C10_queue_liveness_witness :
    positiveLimits c10wRouter = true ∧ goodQueue c10wRouter = true ∧
    ∃ fuel r' now',
      processQueueAux fuel c10wRouter 0 = (r', now', c10wRouter.messageQueue) ∧
      r'.messageQueue = [] :=
  ⟨by decide, by decide,
   C10_queue_liveness_amended c10wRouter 0 (by decide) (by decide)⟩

end ClaudePulse
